import Mathlib

/-!
Verification development for the dmypy-ls language server
(`src/dmypy_ls/__init__.py`).

The Python source is shallowly embedded:

* `MYPY_OUTPUT_RE` (a `re.VERBOSE` regex) is embedded as the executable
  matcher `MYPY_OUTPUT_RE_match`.  The regex
  `^(?P<file>[^:]+):(?P<row>[-+]?\d+):(?:(?P<col>[-+]?\d+):)? `
  `(?P<severity>[^:]+): (?P<message>.*?)(?:\ \ \[(?P<code>[^\]]+)\])?$`
  is deterministic on newline-free inputs: each greedy character class is
  followed by a character it can never match (so shrinking a group can never
  rescue a failed continuation), the optional `col` group consumes a digit or
  sign as its first character while the alternative immediately requires a
  space (so skipping the group after it matched can never succeed), and the
  lazy `message` group together with the optional trailing code group selects
  the leftmost split point whose remainder is exactly `"  [" ++ code ++ "]"`
  with `code` nonempty and free of `']'`.  The matcher below implements this
  deterministic reading directly over `List Char`.

* `MYPY_SEVERITY` is the dict lookup; a missing key (any severity other than
  "error"/"warning"/"note") raises `KeyError` in Python, modelled as `none`.

* `publish_result_to_diagnostic` is embedded as a function from the
  triggering uri and the check result to `Option (List Diagnostic)`:
  `some ds` means `publish_diagnostics(uri, ds)` is reached, `none` means an
  exception (the `KeyError`) escapes the method and nothing is published.

* `MypyServer.check`, `check_with_mypy`, `check_with_dmypy` and `validate`
  are embedded with the external collaborators (pygls workspace, mypy
  `SourceFinder.crawl_up`, `os.path.normpath`, `mypy_main.run_build`, the
  dmypy `Server`, and the file system behind `fscache.stat`) as oracle
  fields of an environment record.  `fscache.stat` raises `OSError` when the
  path does not exist; this is modelled by the `file_exists` oracle.
  `validate`'s bare `except:` binds `res` and falls through to a log line
  reading `source.path` and to `publish_result_to_diagnostic(text_doc.uri,..)`;
  when the exception occurred before `source` (resp. `text_doc`) was bound,
  that line itself raises `NameError`, modelled by `ValidateOutcome.raised`.
  The events performed inside `check` are returned as a trace so that
  "the adapter/engine was (not) invoked" is expressible.

Python string indexing/slicing is by code points, which coincides with
`String.data : List Char`; `uri[7:]` is `pyDrop`, `str.startswith`/
`str.endswith` are `pyStartsWith`/`pyEndsWith`, `str.splitlines` (on
newline-only text, the form mypy emits) is `splitlines`, and `int()` applied
to a `[-+]?\d+` capture is `pyInt`.
-/

/-! ## Character-list helpers -/

/-- Longest initial segment of `l` whose characters satisfy `p`, paired with
the rest (the semantics of a greedy character class in the regex). -/
def spanCL (p : Char → Bool) : List Char → List Char × List Char
  | [] => ([], [])
  | c :: cs =>
    if p c then
      let s := spanCL p cs
      (c :: s.1, s.2)
    else ([], c :: cs)

/-- Consume one expected character, returning the rest of the input. -/
def eatChar (target : Char) : List Char → Option (List Char)
  | [] => none
  | c :: r => if c = target then some r else none

/-- Boolean list-inclusion test used for `str.startswith`/`str.endswith`. -/
def isPrefixOfCL : List Char → List Char → Bool
  | [], _ => true
  | _ :: _, [] => false
  | a :: as, b :: bs => a == b && isPrefixOfCL as bs

/-- `str.splitlines` restricted to `'\n'` separators (mypy output only uses
`'\n'`): splits at each newline and drops a final empty line produced by a
trailing newline, so `"" ↦ []`, `"a\n" ↦ ["a"]`, `"a\n\nb" ↦ ["a","","b"]`. -/
def splitlinesCL : List Char → List (List Char)
  | [] => []
  | c :: r =>
    if c = '\n' then [] :: splitlinesCL r
    else
      match splitlinesCL r with
      | [] => [[c]]
      | l :: ls => (c :: l) :: ls

/-- Decimal value of a digit string. -/
def digitsVal (l : List Char) : Nat :=
  l.foldl (fun a c => a * 10 + (c.toNat - 48)) 0

/-! ## String wrappers for the Python primitives -/

def pyStartsWith (s t : String) : Bool := isPrefixOfCL t.data s.data

def pyEndsWith (s t : String) : Bool := isPrefixOfCL t.data.reverse s.data.reverse

/-- Python slice `s[n:]` (by code points). -/
def pyDrop (s : String) (n : Nat) : String := String.mk (s.data.drop n)

def splitlines (s : String) : List String := (splitlinesCL s.data).map String.mk

/-- Python `int()` applied to a string matching `[-+]?\d+`. -/
def pyInt (s : String) : Int :=
  match s.data with
  | '-' :: ds => - (digitsVal ds : Int)
  | '+' :: ds => (digitsVal ds : Int)
  | ds => (digitsVal ds : Int)

/-! ## The `MYPY_OUTPUT_RE` matcher -/

def notColon (c : Char) : Bool := c != ':'

/-- A nonempty run of characters satisfying `p` followed by a `':'`
(`(?P<g>[^:]+):` and, for `p = Char.isDigit`, the digit part of
`(?P<g>\d+):`). -/
def parseGroupColon (p : Char → Bool) (l : List Char) : Option (List Char × List Char) :=
  let s := spanCL p l
  if s.1.isEmpty then none
  else
    match eatChar ':' s.2 with
    | some r => some (s.1, r)
    | none => none

/-- `[-+]?\d+:` — an optionally signed, nonempty digit string followed by
`':'`.  A sign consumed without following digits cannot be given back:
backtracking to the empty `[-+]?` alternative would require `\d+` to match
the sign character itself, which fails. -/
def parseIntTokenColon (l : List Char) : Option (List Char × List Char) :=
  match l with
  | [] => none
  | c :: cs =>
    if c == '-' || c == '+' then
      match parseGroupColon Char.isDigit cs with
      | some (ds, r) => some (c :: ds, r)
      | none => none
    else parseGroupColon Char.isDigit l

/-- Does `l` consist exactly of `"  ["`, a nonempty `']'`-free code, and a
final `"]"`?  This is the only way `(?:\ \ \[(?P<code>[^\]]+)\])?$` can
accept the remainder of the line. -/
def codeMarker (l : List Char) : Option (List Char) :=
  match eatChar ' ' l with
  | none => none
  | some l1 =>
    match eatChar ' ' l1 with
    | none => none
    | some l2 =>
      match eatChar '[' l2 with
      | none => none
      | some rest =>
        if (spanCL (fun c => c != ']') rest).1.isEmpty then none
        else if (spanCL (fun c => c != ']') rest).2 = [']'] then
          some (spanCL (fun c => c != ']') rest).1
        else none

/-- The lazy `(?P<message>.*?)` with the optional trailing code group: the
message is the shortest prefix whose remainder is a complete code marker;
when no position admits one, the whole text is the message and the code is
absent. -/
def splitMessageCode : List Char → List Char × Option (List Char)
  | [] => ([], none)
  | c :: cs =>
    match codeMarker (c :: cs) with
    | some cd => ([], some cd)
    | none =>
      let s := splitMessageCode cs
      (c :: s.1, s.2)

/-- The named groups of `MYPY_OUTPUT_RE`, exactly the fields of the
`MypyRegexResult` TypedDict (captures are strings; `col` and `code` may be
`None`). -/
structure MypyRegexResult where
  file : String
  row : String
  col : Option String
  severity : String
  message : String
  code : Option String
deriving DecidableEq, Repr

/-- Character-list version of the capture record. -/
structure MypyResultCL where
  file : List Char
  row : List Char
  col : Option (List Char)
  severity : List Char
  message : List Char
  code : Option (List Char)
deriving DecidableEq, Repr

/-- Continuation of the match after the optional `col` group:
`[ ](?P<severity>[^:]+):[ ]` then message/code.  If the `col` group has
consumed input, its first consumed character was a sign or digit, on which
the `[ ]` of the skipped alternative necessarily fails, so committing to a
successful `col` parse is faithful to the backtracking regex. -/
def matchTail (f row : List Char) (c : Option (List Char)) (r : List Char) :
    Option MypyResultCL :=
  match eatChar ' ' r with
  | none => none
  | some r4 =>
    match parseGroupColon notColon r4 with
    | none => none
    | some (sev, r5) =>
      match eatChar ' ' r5 with
      | none => none
      | some r6 =>
        some ⟨f, row, c, sev, (splitMessageCode r6).1, (splitMessageCode r6).2⟩

/-- The full anchored match of `MYPY_OUTPUT_RE` over a newline-free line. -/
def matchLineCL (l : List Char) : Option MypyResultCL :=
  match parseGroupColon notColon l with
  | none => none
  | some (f, r1) =>
    match parseIntTokenColon r1 with
    | none => none
    | some (row, r2) =>
      match parseIntTokenColon r2 with
      | some (c, r3) => matchTail f row (some c) r3
      | none => matchTail f row none r2

/-- `MYPY_OUTPUT_RE.match(line)` followed by `.groupdict()`. -/
def MYPY_OUTPUT_RE_match (line : String) : Option MypyRegexResult :=
  match matchLineCL line.data with
  | none => none
  | some r =>
    some ⟨String.mk r.file, String.mk r.row, r.col.map String.mk,
          String.mk r.severity, String.mk r.message, r.code.map String.mk⟩

/-! ## Diagnostics and the translator -/

/-- `lsprotocol.types.DiagnosticSeverity` (the values used by the server). -/
inductive DiagnosticSeverity
  | Error
  | Warning
  | Information
  | Hint
deriving DecidableEq, Repr

/-- `lsprotocol.types.Position` (the server stores `int` expressions in it). -/
structure Position where
  line : Int
  character : Int
deriving DecidableEq, Repr

/-- `lsprotocol.types.Range`; `endPos` is the `end` keyword argument. -/
structure Range where
  start : Position
  endPos : Position
deriving DecidableEq, Repr

/-- `lsprotocol.types.Diagnostic` with the fields the server sets. -/
structure Diagnostic where
  range : Range
  message : String
  code : Option String
  severity : DiagnosticSeverity
  source : String
deriving DecidableEq, Repr

/-- The `MYPY_SEVERITY` dict.  `none` is a missing key: in Python the
subscript `MYPY_SEVERITY[data["severity"]]` then raises `KeyError`. -/
def MYPY_SEVERITY (s : String) : Option DiagnosticSeverity :=
  if s = "error" then some DiagnosticSeverity.Error
  else if s = "warning" then some DiagnosticSeverity.Warning
  else if s = "note" then some DiagnosticSeverity.Information
  else none

/-- `col = 1 if data["col"] is None else int(data["col"])`. -/
def colValue : Option String → Int
  | none => 1
  | some c => pyInt c

/-- One iteration of the loop body of `publish_result_to_diagnostic`:
`some none` — the line is dropped (regex mismatch, which is only logged, or
`continue` on the uri-suffix filter); `some (some d)` — diagnostic `d` is
appended; `none` — the `KeyError` from the severity lookup escapes. -/
def translateLine (uri line : String) : Option (Option Diagnostic) :=
  match MYPY_OUTPUT_RE_match line with
  | none => some none
  | some data =>
    if pyEndsWith uri data.file then
      match MYPY_SEVERITY data.severity with
      | none => none
      | some sev =>
        some (some
          { range :=
              { start := { line := pyInt data.row - 1, character := colValue data.col - 1 },
                endPos := { line := pyInt data.row - 1, character := colValue data.col } },
            message := data.message,
            code := data.code,
            severity := sev,
            source := "dmypy-ls" })
    else some none

/-- The `for line in res["out"].splitlines()` loop, accumulating the
`diagnostics` list in order; `none` when an exception escapes mid-loop. -/
def publishLoop (uri : String) : List String → Option (List Diagnostic)
  | [] => some []
  | line :: rest =>
    match translateLine uri line with
    | none => none
    | some none => publishLoop uri rest
    | some (some d) => Option.map (fun ds => d :: ds) (publishLoop uri rest)

/-- `CheckResult` — the `{"out": ..., "err": ..., "status": ...}` dict
returned by `check`/`check_with_mypy`/`check_with_dmypy` (and synthesized by
`validate`'s exception handler). -/
structure CheckResult where
  out : String
  err : String
  status : Int
deriving DecidableEq, Repr

/-- `MypyServer.publish_result_to_diagnostic(uri, res, elapsed)` up to the
final `self.publish_diagnostics(uri, diagnostics)` call: `some ds` means
that call is reached with the list `ds`, `none` means the method raises
before reaching it (logging is not modelled; `elapsed` only feeds logs). -/
def publish_result_to_diagnostic (uri : String) (res : CheckResult) :
    Option (List Diagnostic) :=
  publishLoop uri (splitlines res.out)

/-- Successive triggering events for the same uri: the method reads only its
arguments (no diagnostic state is kept on the server object), so each call
is an independent application; the list collects what each call hands to
`publish_diagnostics`. -/
def publishSequence (uri : String) (results : List CheckResult) :
    List (Option (List Diagnostic)) :=
  results.map (publish_result_to_diagnostic uri)

/-! ## The check-session model -/

/-- `mypy.modulefinder.BuildSource` with the constructor arguments used by
`validate`: `BuildSource(path, module, text, base_dir)`. -/
structure BuildSource where
  path : Option String
  module : Option String
  text : Option String
  base_dir : Option String
deriving DecidableEq, Repr

/-- The dmypy `Server` boundary used by `check_with_dmypy`:
`following_imports()`, the two fine-grained entry points, and
`increment_output` (which shapes the messages into the result dict).
`flush_caches`/`update_stats` only mutate engine-internal state and the
timing statistics, not the out/err/status fields, so they do not appear. -/
structure DmypyServer where
  following_imports : Bool
  fine_grained_increment : BuildSource → List String
  fine_grained_increment_follow_imports : BuildSource → List String
  increment_output : List String → BuildSource → CheckResult

/-- `MypyServer.check_with_dmypy`. -/
def check_with_dmypy (srv : DmypyServer) (source : BuildSource) : CheckResult :=
  let messages :=
    if !srv.following_imports then srv.fine_grained_increment source
    else srv.fine_grained_increment_follow_imports source
  srv.increment_output messages source

/-- The one-shot engine boundary: `mypy_main.run_build` writing to the
redirected stdout/stderr buffers.  `Except.error` is an exception escaping
the call. -/
structure MypyEngine where
  run_build : BuildSource → Except String (String × String)

/-- `MypyServer.check_with_mypy`: whatever the build produced, the returned
dict carries `"status": 0`. -/
def check_with_mypy (engine : MypyEngine) (source : BuildSource) :
    Except String CheckResult :=
  match engine.run_build source with
  | Except.error e => Except.error e
  | Except.ok (o, e) => Except.ok ⟨o, e, 0⟩

/-- The server configuration and external state `check` consults:
`_use_dmypy`, the file system behind `fscache.stat` (which raises `OSError`
for a missing path), and the two engines. -/
structure ServerState where
  use_dmypy : Bool
  file_exists : String → Bool
  engine : MypyEngine
  dmypy : DmypyServer

/-- Observable calls made inside `MypyServer.check`. -/
inductive CheckEvent
  | fscacheFlush
  | fscacheStat (path : String)
  | overlayWrite (path : String)
  | mypyRunBuild
  | dmypyIncrement
deriving DecidableEq, Repr

/-- The mode dispatch at the end of `check`. -/
def checkDispatch (st : ServerState) (source : BuildSource) :
    List CheckEvent × Except String CheckResult :=
  if st.use_dmypy then ([CheckEvent.dmypyIncrement], Except.ok (check_with_dmypy st.dmypy source))
  else ([CheckEvent.mypyRunBuild], check_with_mypy st.engine source)

/-- `MypyServer.check`: flush the fscache; under Python truthiness of
`source.path and source.text`, stat the path (raising if it no longer
exists) and install the overlay bytes and hash; then dispatch on the mode.
The event list records what was invoked. -/
def check (st : ServerState) (source : BuildSource) :
    List CheckEvent × Except String CheckResult :=
  match source.path, source.text with
  | some p, some t =>
    if p != "" && t != "" then
      if st.file_exists p then
        let d := checkDispatch st source
        (CheckEvent.fscacheFlush :: CheckEvent.fscacheStat p :: CheckEvent.overlayWrite p :: d.1,
         d.2)
      else
        ([CheckEvent.fscacheFlush, CheckEvent.fscacheStat p], Except.error "FileNotFoundError")
    else
      let d := checkDispatch st source
      (CheckEvent.fscacheFlush :: d.1, d.2)
  | _, _ =>
    let d := checkDispatch st source
    (CheckEvent.fscacheFlush :: d.1, d.2)

/-- Document handed back by `self.workspace.get_document(...)`. -/
structure TextDoc where
  uri : String
  source : String
deriving DecidableEq, Repr

/-- The external collaborators `validate` touches before/around `check`:
pygls `workspace.get_document` (which can raise), `os.path.normpath`, and
mypy `SourceFinder.crawl_up` (which can raise); plus the server state. -/
structure ValidateEnv where
  st : ServerState
  get_document : Except String TextDoc
  normpath : String → String
  crawl_up : String → Except String (String × String)

/-- What happens after the try/except of `validate`: either
`publish_result_to_diagnostic(text_doc.uri, res, elapsed)` is reached with
these arguments, or the code after the handler itself raises (`NameError`
when the log f-string reads `source.path` with `source` never bound). -/
inductive ValidateOutcome
  | published (uri : String) (res : CheckResult)
  | raised (msg : String)
deriving DecidableEq, Repr

/-- Run of `validate`: the trace of `check`-internal events, the
`BuildSource` passed to `check` when `check` was reached, and the outcome. -/
structure ValidateRun where
  events : List CheckEvent
  checkedSource : Option BuildSource
  outcome : ValidateOutcome
deriving Repr

/-- `MypyServer.validate`.  The bare `except:` catches anything raised while
resolving the document, building the `BuildSource`, or running `check`, and
synthesizes `{"out": "", "err": traceback, "status": 2}` — but the following
log line reads `source.path` and the publish call reads `text_doc.uri`, and
those locals are unbound when the exception predates their assignment, so
control raises `NameError` instead of publishing in those cases. -/
def validate (env : ValidateEnv) : ValidateRun :=
  match env.get_document with
  | Except.error _ =>
    ⟨[], none, ValidateOutcome.raised "NameError: name 'source' is not defined"⟩
  | Except.ok doc =>
    if pyStartsWith doc.uri "file://" then
      let filepath := env.normpath (pyDrop doc.uri 7)
      match env.crawl_up filepath with
      | Except.error _ =>
        ⟨[], none, ValidateOutcome.raised "NameError: name 'source' is not defined"⟩
      | Except.ok (name, base_dir) =>
        let source : BuildSource := ⟨some filepath, some name, some doc.source, some base_dir⟩
        let c := check env.st source
        match c.2 with
        | Except.ok res => ⟨c.1, some source, ValidateOutcome.published doc.uri res⟩
        | Except.error e =>
          ⟨c.1, some source, ValidateOutcome.published doc.uri ⟨"", e, 2⟩⟩
    else
      let source : BuildSource := ⟨none, none, some doc.source, none⟩
      let c := check env.st source
      match c.2 with
      | Except.ok res => ⟨c.1, some source, ValidateOutcome.published doc.uri res⟩
      | Except.error e =>
        ⟨c.1, some source, ValidateOutcome.published doc.uri ⟨"", e, 2⟩⟩

/-- `validate` composed with `publish_result_to_diagnostic`:
`(events, none)` — nothing was published (an exception escaped);
`(events, some (uri, none))` — publication was attempted but the translator
raised; `(events, some (uri, some ds))` — `publish_diagnostics(uri, ds)`. -/
def validate_and_publish (env : ValidateEnv) :
    List CheckEvent × Option (String × Option (List Diagnostic)) :=
  match validate env with
  | ⟨evs, _, ValidateOutcome.raised _⟩ => (evs, none)
  | ⟨evs, _, ValidateOutcome.published uri res⟩ =>
    (evs, some (uri, publish_result_to_diagnostic uri res))

/-! ## The grammar rendering for the round-trip claim -/

/-- `<file>:<row>[:<col>]: <severity>: <msgFull>` rendered over char lists
(`msgFull` is the free text including any trailing code marker). -/
def renderLineCL (f r : List Char) (c : Option (List Char)) (s m : List Char) : List Char :=
  f ++ (':' :: (r ++ ((match c with | some cd => ':' :: cd | none => []) ++
    (':' :: (' ' :: (s ++ (':' :: (' ' :: m))))))))

/-- String-level rendering of a grammar line. -/
def renderLine (file row : String) (col : Option String) (sev msgFull : String) : String :=
  String.mk (renderLineCL file.data row.data (col.map String.data) sev.data msgFull.data)

/-- The text the regex's optional code group consumes: empty when the code
is absent, `"  [" ++ code ++ "]"` when present. -/
def codeSuffixCL : Option (List Char) → List Char
  | none => []
  | some cd => ' ' :: ' ' :: '[' :: (cd ++ [']'])

/-- A `[-+]?\d+` token: optional sign, then a nonempty digit string. -/
def isIntTokenCL : List Char → Bool
  | [] => false
  | c :: cs =>
    if c == '-' || c == '+' then !cs.isEmpty && cs.all Char.isDigit
    else Char.isDigit c && cs.all Char.isDigit

/-! ## Concrete scenario environments (used by individual claims) -/

/-- A trivial dmypy server oracle for scenarios running in one-shot mode. -/
def dmypyIdle : DmypyServer :=
  ⟨false, fun _ => [], fun _ => [], fun _ _ => ⟨"", "", 0⟩⟩

/-- Scenario for the missing-file claim: a `file://` document whose backing
path does not exist (`file_exists` is constantly false). -/
def envMissingFile : ValidateEnv :=
  { st := { use_dmypy := false, file_exists := fun _ => false,
            engine := ⟨fun _ => Except.ok ("", "")⟩, dmypy := dmypyIdle },
    get_document := Except.ok ⟨"file:///tmp/a.py", "x = 1"⟩,
    normpath := fun s => s,
    crawl_up := fun _ => Except.ok ("a", "/tmp") }

/-- Scenario for the untitled-buffer claim: the uri is not a `file://` uri. -/
def envUntitled : ValidateEnv :=
  { st := { use_dmypy := false, file_exists := fun _ => true,
            engine := ⟨fun _ => Except.ok ("", "")⟩, dmypy := dmypyIdle },
    get_document := Except.ok ⟨"untitled:buf", "x = 1"⟩,
    normpath := fun s => s,
    crawl_up := fun _ => Except.ok ("", "") }

/-- Scenario for the exception-handling claim: `workspace.get_document`
raises, so document resolution fails before `text_doc`/`source` are bound. -/
def envDocFailure : ValidateEnv :=
  { st := { use_dmypy := false, file_exists := fun _ => true,
            engine := ⟨fun _ => Except.ok ("", "")⟩, dmypy := dmypyIdle },
    get_document := Except.error "JsonRpcException",
    normpath := fun s => s,
    crawl_up := fun _ => Except.ok ("", "") }

/-- An engine whose build raises (for the one-shot failure claim). -/
def engineBoom : MypyEngine := ⟨fun _ => Except.error "boom"⟩

/-- An engine whose build completes, writing to the redirected streams. -/
def engineQuiet : MypyEngine := ⟨fun _ => Except.ok ("out text", "err text")⟩

/-- Scenario for the one-shot status claim: non-file uri, mypy mode, build
raising. -/
def envBuildFailure : ValidateEnv :=
  { st := { use_dmypy := false, file_exists := fun _ => true,
            engine := engineBoom, dmypy := dmypyIdle },
    get_document := Except.ok ⟨"untitled:x", "x = 1"⟩,
    normpath := fun s => s,
    crawl_up := fun _ => Except.ok ("", "") }

/-- Concrete dmypy servers and source for the mode-branching claim. -/
def dmypyLocalW : DmypyServer :=
  ⟨false, fun _ => ["local"], fun _ => ["follow"], fun msgs _ => ⟨"", "", Int.ofNat msgs.length⟩⟩

def dmypyFollowW : DmypyServer :=
  ⟨true, fun _ => ["local"], fun _ => ["follow"], fun msgs _ => ⟨"", "", Int.ofNat msgs.length⟩⟩

def sourceW : BuildSource := ⟨some "/tmp/a.py", some "a", some "x = 1", some "/tmp"⟩

/-- The report of the unknown-severity counterexample: its first line has
severity token `fatal`, its second is a perfectly good error line. -/
def resUnknownSeverity : CheckResult :=
  ⟨"a.py:1: fatal: boom\na.py:2: error: real problem  [misc]", "", 0⟩

/-! ## Helper lemmas about the parsing combinators -/

theorem string_mk_data (s : String) : String.mk s.data = s := rfl

theorem spanCL_cons_pos (p : Char → Bool) (c : Char) (cs : List Char) (h : p c = true) :
    spanCL p (c :: cs) = (c :: (spanCL p cs).1, (spanCL p cs).2) := by
  simp [spanCL, h]

theorem spanCL_cons_neg (p : Char → Bool) (c : Char) (cs : List Char) (h : p c = false) :
    spanCL p (c :: cs) = ([], c :: cs) := by
  simp [spanCL, h]

theorem spanCL_append_stop (p : Char → Bool) (tok : List Char) (c : Char) (r : List Char)
    (h1 : tok.all p = true) (h2 : p c = false) :
    spanCL p (tok ++ c :: r) = (tok, c :: r) := by
  induction tok with
  | nil => simpa using spanCL_cons_neg p c r h2
  | cons a tk ih =>
    simp only [List.all_cons, Bool.and_eq_true] at h1
    rw [List.cons_append, spanCL_cons_pos p a _ h1.1, ih h1.2]

theorem spanCL_decomp (p : Char → Bool) (l : List Char) :
    (spanCL p l).1 ++ (spanCL p l).2 = l := by
  induction l with
  | nil => rfl
  | cons c cs ih =>
    cases h : p c with
    | true => rw [spanCL_cons_pos p c cs h]; simpa using ih
    | false => rw [spanCL_cons_neg p c cs h]; rfl

theorem spanCL_all (p : Char → Bool) (l : List Char) :
    (spanCL p l).1.all p = true := by
  induction l with
  | nil => rfl
  | cons c cs ih =>
    cases h : p c with
    | true =>
      rw [spanCL_cons_pos p c cs h]
      simp only [List.all_cons, Bool.and_eq_true]
      exact ⟨h, ih⟩
    | false => rw [spanCL_cons_neg p c cs h]; rfl

theorem eatChar_cons_self (t : Char) (r : List Char) : eatChar t (t :: r) = some r := by
  simp [eatChar]

theorem eatChar_eq_some {t : Char} {l r : List Char} (h : eatChar t l = some r) :
    l = t :: r := by
  cases l with
  | nil => exact Option.noConfusion h
  | cons c cs =>
    by_cases hc : c = t
    · subst hc
      rw [eatChar_cons_self] at h
      exact congrArg (c :: ·) (Option.some.inj h)
    · simp [eatChar, hc] at h

theorem parseGroupColon_append (p : Char → Bool) (tok r : List Char)
    (h1 : tok ≠ []) (h2 : tok.all p = true) (h3 : p ':' = false) :
    parseGroupColon p (tok ++ ':' :: r) = some (tok, r) := by
  simp only [parseGroupColon, spanCL_append_stop p tok ':' r h2 h3, eatChar_cons_self]
  cases tok with
  | nil => exact absurd rfl h1
  | cons a tk => rfl

theorem parseIntTokenColon_append (tok r : List Char) (h : isIntTokenCL tok = true) :
    parseIntTokenColon (tok ++ ':' :: r) = some (tok, r) := by
  cases tok with
  | nil => exact absurd h (by simp [isIntTokenCL])
  | cons c cs =>
    simp only [isIntTokenCL] at h
    by_cases hc : (c == '-' || c == '+') = true
    · rw [if_pos hc] at h
      simp only [Bool.and_eq_true, Bool.not_eq_true'] at h
      have hcs : cs ≠ [] := by
        intro e
        rw [e] at h
        exact absurd h.1 (by simp [List.isEmpty])
      simp only [List.cons_append, parseIntTokenColon, if_pos hc,
        parseGroupColon_append Char.isDigit cs r hcs h.2 (by decide)]
    · rw [if_neg hc] at h
      simp only [Bool.and_eq_true] at h
      simp only [List.cons_append, parseIntTokenColon, if_neg hc]
      rw [← List.cons_append]
      exact parseGroupColon_append Char.isDigit (c :: cs) r (by simp)
        (by simp [List.all_cons, h.1, h.2]) (by decide)

theorem parseIntTokenColon_nondigit (c : Char) (r : List Char)
    (h1 : (c == '-' || c == '+') = false) (h2 : Char.isDigit c = false) :
    parseIntTokenColon (c :: r) = none := by
  simp only [parseIntTokenColon, h1, Bool.false_eq_true, if_false, parseGroupColon,
    spanCL_cons_neg Char.isDigit c r h2]
  rfl

theorem codeMarker_some {l cd : List Char} (h : codeMarker l = some cd) :
    cd ≠ [] ∧ cd.all (fun c => c != ']') = true ∧ l = ' ' :: ' ' :: '[' :: (cd ++ [']']) := by
  cases h1 : eatChar ' ' l with
  | none =>
    simp only [codeMarker, h1] at h
    exact Option.noConfusion h
  | some l1 =>
    cases h2 : eatChar ' ' l1 with
    | none =>
      simp only [codeMarker, h1, h2] at h
      exact Option.noConfusion h
    | some l2 =>
      cases h3 : eatChar '[' l2 with
      | none =>
        simp only [codeMarker, h1, h2, h3] at h
        exact Option.noConfusion h
      | some rest =>
        simp only [codeMarker, h1, h2, h3] at h
        by_cases he : (spanCL (fun c => c != ']') rest).1.isEmpty = true
        · rw [if_pos he] at h; exact Option.noConfusion h
        · rw [if_neg he] at h
          by_cases hr : (spanCL (fun c => c != ']') rest).2 = [']']
          · rw [if_pos hr] at h
            have hcd : cd = (spanCL (fun c => c != ']') rest).1 := (Option.some.inj h).symm
            have hnil : cd ≠ [] := by
              intro e
              rw [hcd] at e
              rw [e] at he
              exact he rfl
            have hrest : rest = cd ++ [']'] := by
              rw [hcd, ← hr]
              exact (spanCL_decomp (fun c => c != ']') rest).symm
            refine ⟨hnil, ?_, ?_⟩
            · rw [hcd]; exact spanCL_all _ rest
            · rw [eatChar_eq_some h1, eatChar_eq_some h2, eatChar_eq_some h3, hrest]
          · rw [if_neg hr] at h; exact Option.noConfusion h

theorem splitMessageCode_decomp (l : List Char) :
    (splitMessageCode l).1 ++ codeSuffixCL (splitMessageCode l).2 = l := by
  induction l with
  | nil => rfl
  | cons c cs ih =>
    cases h : codeMarker (c :: cs) with
    | some cd =>
      simp only [splitMessageCode, h]
      have := (codeMarker_some h).2.2
      simp only [codeSuffixCL, List.nil_append]
      exact this.symm
    | none =>
      simp only [splitMessageCode, h, List.cons_append]
      exact congrArg (c :: ·) ih

theorem splitMessageCode_code {l cd : List Char} (h : (splitMessageCode l).2 = some cd) :
    cd ≠ [] ∧ cd.all (fun c => c != ']') = true := by
  induction l with
  | nil => exact Option.noConfusion h
  | cons c cs ih =>
    cases hm : codeMarker (c :: cs) with
    | some cd' =>
      simp only [splitMessageCode, hm] at h
      obtain rfl : cd' = cd := Option.some.inj h
      exact ⟨(codeMarker_some hm).1, (codeMarker_some hm).2.1⟩
    | none =>
      simp only [splitMessageCode, hm] at h
      exact ih h

theorem splitMessageCode_leftmost (l : List Char) :
    ∀ i, i < (splitMessageCode l).1.length → codeMarker (l.drop i) = none := by
  induction l with
  | nil =>
    intro i h
    exact absurd h (by simp [splitMessageCode])
  | cons c cs ih =>
    intro i h
    cases hm : codeMarker (c :: cs) with
    | some cd =>
      rw [show splitMessageCode (c :: cs) = ([], some cd) by simp [splitMessageCode, hm]] at h
      exact absurd h (by simp)
    | none =>
      simp only [splitMessageCode, hm, List.length_cons] at h
      cases i with
      | zero => exact hm
      | succ j =>
        rw [List.drop_succ_cons]
        exact ih j (Nat.lt_of_succ_lt_succ h)

theorem splitMessageCode_no_marker {l : List Char} (h : (splitMessageCode l).2 = none) :
    ∀ i, codeMarker (l.drop i) = none := by
  induction l with
  | nil =>
    intro i
    rw [List.drop_nil]
    rfl
  | cons c cs ih =>
    intro i
    cases hm : codeMarker (c :: cs) with
    | some cd =>
      rw [show splitMessageCode (c :: cs) = ([], some cd) by simp [splitMessageCode, hm]] at h
      exact Option.noConfusion h
    | none =>
      cases i with
      | zero => exact hm
      | succ j =>
        rw [List.drop_succ_cons]
        simp only [splitMessageCode, hm] at h
        exact ih h j

theorem MYPY_OUTPUT_RE_match_mk (l : List Char) :
    MYPY_OUTPUT_RE_match (String.mk l) =
      (matchLineCL l).map (fun r =>
        ⟨String.mk r.file, String.mk r.row, r.col.map String.mk,
         String.mk r.severity, String.mk r.message, r.code.map String.mk⟩) := by
  cases h : matchLineCL l <;> simp [MYPY_OUTPUT_RE_match, h]

/-! ## Lemmas about the translator -/

theorem translateLine_build (uri line : String) (data : MypyRegexResult)
    (sev : DiagnosticSeverity)
    (hm : MYPY_OUTPUT_RE_match line = some data)
    (hsuf : pyEndsWith uri data.file = true)
    (hsev : MYPY_SEVERITY data.severity = some sev) :
    translateLine uri line = some (some
      { range := { start := { line := pyInt data.row - 1, character := colValue data.col - 1 },
                   endPos := { line := pyInt data.row - 1, character := colValue data.col } },
        message := data.message, code := data.code, severity := sev,
        source := "dmypy-ls" }) := by
  simp [translateLine, hm, hsuf, hsev]

theorem translateLine_skip (uri line : String) (data : MypyRegexResult)
    (hm : MYPY_OUTPUT_RE_match line = some data)
    (hsuf : pyEndsWith uri data.file = false) :
    translateLine uri line = some none := by
  simp [translateLine, hm, hsuf]

theorem translateLine_raise (uri line : String) (data : MypyRegexResult)
    (hm : MYPY_OUTPUT_RE_match line = some data)
    (hsuf : pyEndsWith uri data.file = true)
    (hsev : MYPY_SEVERITY data.severity = none) :
    translateLine uri line = none := by
  simp [translateLine, hm, hsuf, hsev]

theorem translateLine_of_some {uri line : String} {d : Diagnostic}
    (h : translateLine uri line = some (some d)) :
    ∃ dt, MYPY_OUTPUT_RE_match line = some dt ∧ pyEndsWith uri dt.file = true := by
  cases hm : MYPY_OUTPUT_RE_match line with
  | none => exact absurd h (by simp [translateLine, hm])
  | some dt =>
    refine ⟨dt, rfl, ?_⟩
    cases hs : pyEndsWith uri dt.file with
    | true => rfl
    | false => exact absurd h (by simp [translateLine, hm, hs])

theorem publishLoop_none_of_mem (uri : String) (lines : List String) (line : String)
    (hmem : line ∈ lines) (h : translateLine uri line = none) :
    publishLoop uri lines = none := by
  induction lines with
  | nil => exact absurd hmem (List.not_mem_nil line)
  | cons a rest ih =>
    rcases List.mem_cons.mp hmem with rfl | hm
    · simp [publishLoop, h]
    · cases ht : translateLine uri a with
      | none => simp [publishLoop, ht]
      | some o =>
        cases o with
        | none => simpa [publishLoop, ht] using ih hm
        | some d => simp [publishLoop, ht, ih hm]

theorem publishLoop_empty (uri : String) (lines : List String)
    (h : ∀ l ∈ lines,
      Option.all (fun d => !(pyEndsWith uri d.file)) (MYPY_OUTPUT_RE_match l) = true) :
    publishLoop uri lines = some [] := by
  induction lines with
  | nil => rfl
  | cons a rest ih =>
    have ha := h a (List.mem_cons_self a rest)
    have ht : translateLine uri a = some none := by
      cases hm : MYPY_OUTPUT_RE_match a with
      | none => simp [translateLine, hm]
      | some data =>
        rw [hm] at ha
        simp only [Option.all] at ha
        have hfalse : pyEndsWith uri data.file = false := by
          cases hx : pyEndsWith uri data.file
          · rfl
          · rw [hx] at ha; exact absurd ha (by decide)
        simp [translateLine, hm, hfalse]
    simpa [publishLoop, ht] using ih (fun l hl => h l (List.mem_cons_of_mem a hl))

theorem publishLoop_sources (uri : String) (lines : List String) (ds : List Diagnostic)
    (h : publishLoop uri lines = some ds) :
    ∀ d ∈ ds, ∃ l, l ∈ lines ∧
      ∃ dt, MYPY_OUTPUT_RE_match l = some dt ∧ pyEndsWith uri dt.file = true := by
  induction lines generalizing ds with
  | nil =>
    intro d hd
    obtain rfl : ([] : List Diagnostic) = ds := Option.some.inj h
    exact absurd hd (List.not_mem_nil d)
  | cons a rest ih =>
    intro d hd
    cases ht : translateLine uri a with
    | none =>
      simp only [publishLoop, ht] at h
      exact Option.noConfusion h
    | some o =>
      cases o with
      | none =>
        simp only [publishLoop, ht] at h
        obtain ⟨l, hl, hrest⟩ := ih ds h d hd
        exact ⟨l, List.mem_cons_of_mem a hl, hrest⟩
      | some d' =>
        simp only [publishLoop, ht] at h
        cases hr : publishLoop uri rest with
        | none => rw [hr] at h; exact absurd h (by simp)
        | some ds' =>
          rw [hr] at h
          simp only [Option.map_some'] at h
          obtain rfl : d' :: ds' = ds := Option.some.inj h
          rcases List.mem_cons.mp hd with rfl | hd'
          · obtain ⟨dt, h1, h2⟩ := translateLine_of_some ht
            exact ⟨a, List.mem_cons_self a rest, dt, h1, h2⟩
          · obtain ⟨l, hl, hrest⟩ := ih ds' hr d hd'
            exact ⟨l, List.mem_cons_of_mem a hl, hrest⟩

/-! ## Claim theorems -/

/-- Claim C1 (amended).  For a well-formed grammar line
`<file>:<row>[:<col>]: <severity>: <msgFull>` — `file`/`severity` nonempty
and colon-free, `row` and any `col` of the form `[-+]?\d+`, `msgFull`
newline-free — the matcher recovers `file`, `row`, `col` and `severity`
exactly, and splits `msgFull` into message and code at the LEFTMOST point
whose remainder is exactly `"  [" ++ code ++ "]"` with `code` nonempty and
`']'`-free (the code is `None` exactly when no such point exists).  The
original claim's "trailing double-space-bracketed code" reading fails (see
the counterexample): the lazy `message` group commits to the leftmost such
split, not the trailing bracketed token. -/
theorem MYPY_OUTPUT_RE_roundtrip
    (file row sev msgFull : String) (col : Option String)
    (hfile1 : file.data ≠ []) (hfile2 : file.data.all notColon = true)
    (hrow : isIntTokenCL row.data = true)
    (hcol : ∀ c, col = some c → isIntTokenCL c.data = true)
    (hsev1 : sev.data ≠ []) (hsev2 : sev.data.all notColon = true)
    (hnl : msgFull.data.all (fun c => c != '\n') = true) :
    MYPY_OUTPUT_RE_match (renderLine file row col sev msgFull) =
      some ⟨file, row, col, sev,
            String.mk (splitMessageCode msgFull.data).1,
            ((splitMessageCode msgFull.data).2).map String.mk⟩
    ∧ (splitMessageCode msgFull.data).1 ++ codeSuffixCL (splitMessageCode msgFull.data).2
        = msgFull.data
    ∧ (∀ cd, (splitMessageCode msgFull.data).2 = some cd →
        cd ≠ [] ∧ cd.all (fun c => c != ']') = true)
    ∧ (∀ i, i < (splitMessageCode msgFull.data).1.length →
        codeMarker (msgFull.data.drop i) = none)
    ∧ ((splitMessageCode msgFull.data).2 = none →
        ∀ i, codeMarker (msgFull.data.drop i) = none) := by
  refine ⟨?_, splitMessageCode_decomp _, fun cd h => splitMessageCode_code h,
    splitMessageCode_leftmost _, fun h i => splitMessageCode_no_marker h i⟩
  have hmsg : parseGroupColon notColon (sev.data ++ ':' :: (' ' :: msgFull.data))
      = some (sev.data, ' ' :: msgFull.data) :=
    parseGroupColon_append notColon sev.data (' ' :: msgFull.data) hsev1 hsev2 (by decide)
  cases col with
  | none =>
    have e : renderLineCL file.data row.data ((none : Option String).map String.data)
        sev.data msgFull.data =
        file.data ++ ':' :: (row.data ++ ':' ::
          (' ' :: (sev.data ++ ':' :: (' ' :: msgFull.data)))) := by
      simp [renderLineCL]
    have h1 := parseGroupColon_append notColon file.data
      (row.data ++ ':' :: (' ' :: (sev.data ++ ':' :: (' ' :: msgFull.data))))
      hfile1 hfile2 (by decide)
    have h2 := parseIntTokenColon_append row.data
      (' ' :: (sev.data ++ ':' :: (' ' :: msgFull.data))) hrow
    have h3 := parseIntTokenColon_nondigit ' '
      (sev.data ++ ':' :: (' ' :: msgFull.data)) (by decide) (by decide)
    have key : matchLineCL (renderLineCL file.data row.data
        ((none : Option String).map String.data) sev.data msgFull.data) =
        some ⟨file.data, row.data, none, sev.data,
              (splitMessageCode msgFull.data).1, (splitMessageCode msgFull.data).2⟩ := by
      rw [e]
      simp only [matchLineCL, h1, h2, h3, matchTail, eatChar_cons_self, hmsg]
    have final := MYPY_OUTPUT_RE_match_mk (renderLineCL file.data row.data
      ((none : Option String).map String.data) sev.data msgFull.data)
    rw [key] at final
    simpa [renderLine, string_mk_data] using final
  | some c =>
    have hc : isIntTokenCL c.data = true := hcol c rfl
    have e : renderLineCL file.data row.data ((some c : Option String).map String.data)
        sev.data msgFull.data =
        file.data ++ ':' :: (row.data ++ ':' ::
          (c.data ++ ':' :: (' ' :: (sev.data ++ ':' :: (' ' :: msgFull.data))))) := by
      simp [renderLineCL]
    have h1 := parseGroupColon_append notColon file.data
      (row.data ++ ':' :: (c.data ++ ':' :: (' ' :: (sev.data ++ ':' :: (' ' :: msgFull.data)))))
      hfile1 hfile2 (by decide)
    have h2 := parseIntTokenColon_append row.data
      (c.data ++ ':' :: (' ' :: (sev.data ++ ':' :: (' ' :: msgFull.data)))) hrow
    have h3 := parseIntTokenColon_append c.data
      (' ' :: (sev.data ++ ':' :: (' ' :: msgFull.data))) hc
    have key : matchLineCL (renderLineCL file.data row.data
        ((some c : Option String).map String.data) sev.data msgFull.data) =
        some ⟨file.data, row.data, some c.data, sev.data,
              (splitMessageCode msgFull.data).1, (splitMessageCode msgFull.data).2⟩ := by
      rw [e]
      simp only [matchLineCL, h1, h2, h3, matchTail, eatChar_cons_self, hmsg]
    have final := MYPY_OUTPUT_RE_match_mk (renderLineCL file.data row.data
      ((some c : Option String).map String.data) sev.data msgFull.data)
    rw [key] at final
    simpa [renderLine, string_mk_data] using final

/-- Claim C1 counterexample.  The line `f:1: error: a  [b  [c]` matches the
grammar, and its trailing double-space-bracketed token is `  [c]`, so the
claim's reading yields `message = "a  [b"`, `code = "c"`; the regex instead
commits to the leftmost split and returns `message = "a"`,
`code = "b  [c"`. -/
theorem MYPY_OUTPUT_RE_trailing_cex :
    MYPY_OUTPUT_RE_match "f:1: error: a  [b  [c]" =
      some ⟨"f", "1", none, "error", "a", some "b  [c"⟩
    ∧ ("a  [b  [c]" : String) = "a  [b" ++ "  [" ++ "c" ++ "]"
    ∧ (some "b  [c" : Option String) ≠ some "c"
    ∧ ("a" : String) ≠ "a  [b" := by
  exact ⟨by decide, by decide, by decide, by decide⟩

/-- Claim C1 witness: the spec's own example line round-trips. -/
theorem MYPY_OUTPUT_RE_roundtrip_witness :
    MYPY_OUTPUT_RE_match (renderLine "foo/login.py" "228" none "error"
        "Unused \"type: ignore\" comment") =
      some ⟨"foo/login.py", "228", none, "error",
            String.mk (splitMessageCode "Unused \"type: ignore\" comment".data).1,
            ((splitMessageCode "Unused \"type: ignore\" comment".data).2).map String.mk⟩ :=
  (MYPY_OUTPUT_RE_roundtrip "foo/login.py" "228" "error" "Unused \"type: ignore\" comment"
    none (by decide) (by decide) (by decide) (fun c h => nomatch h)
    (by decide) (by decide) (by decide)).1

/-- Claim C2.  A parsed line with 1-based `row` and optional 1-based `col`
is published with 0-based start `(row-1, col-1)` and end `(row-1, col)`,
where the column defaults to `colValue none = 1` when absent (so the start
character is 0 and the end character is 1). -/
theorem diagnostic_position_conversion (uri line : String) (data : MypyRegexResult)
    (sev : DiagnosticSeverity)
    (hm : MYPY_OUTPUT_RE_match line = some data)
    (hsuf : pyEndsWith uri data.file = true)
    (hsev : MYPY_SEVERITY data.severity = some sev) :
    ∃ d, translateLine uri line = some (some d)
      ∧ d.range.start.line = pyInt data.row - 1
      ∧ d.range.start.character = colValue data.col - 1
      ∧ d.range.endPos.line = pyInt data.row - 1
      ∧ d.range.endPos.character = colValue data.col
      ∧ colValue none = 1 :=
  ⟨_, translateLine_build uri line data sev hm hsuf hsev, rfl, rfl, rfl, rfl, rfl⟩

/-- Claim C2 witness: a finding at 1-based (5,5) is published at
(4,4)-(4,5); a finding without a column at row 3 is published at
(2,0)-(2,1). -/
theorem diagnostic_position_conversion_witness :
    (∃ d, translateLine "file:///tmp/a.py" "/tmp/a.py:5:5: error: m" = some (some d)
      ∧ d.range.start.line = 4 ∧ d.range.start.character = 4
      ∧ d.range.endPos.line = 4 ∧ d.range.endPos.character = 5 ∧ colValue none = 1)
    ∧ (∃ d, translateLine "file:///tmp/a.py" "/tmp/a.py:3: error: m" = some (some d)
      ∧ d.range.start.line = 2 ∧ d.range.start.character = 0
      ∧ d.range.endPos.line = 2 ∧ d.range.endPos.character = 1 ∧ colValue none = 1) :=
  ⟨diagnostic_position_conversion "file:///tmp/a.py" "/tmp/a.py:5:5: error: m"
      ⟨"/tmp/a.py", "5", some "5", "error", "m", none⟩ DiagnosticSeverity.Error rfl rfl rfl,
   diagnostic_position_conversion "file:///tmp/a.py" "/tmp/a.py:3: error: m"
      ⟨"/tmp/a.py", "3", none, "error", "m", none⟩ DiagnosticSeverity.Error rfl rfl rfl⟩

/-- Claim C3.  A grammar-matching line (regex match with a known severity)
contributes a diagnostic iff its `file` is a suffix of the triggering uri:
a non-suffix line is silently dropped (`some none`, no failure, before the
severity is even looked up), a suffix line yields a diagnostic, and every
diagnostic of a published list originates from some suffix-matching line of
the report. -/
theorem publish_suffix_filter (uri line : String) (data : MypyRegexResult)
    (hm : MYPY_OUTPUT_RE_match line = some data) :
    (pyEndsWith uri data.file = false → translateLine uri line = some none)
    ∧ (∀ sev, MYPY_SEVERITY data.severity = some sev → pyEndsWith uri data.file = true →
        ∃ d, translateLine uri line = some (some d))
    ∧ (∀ res ds, publish_result_to_diagnostic uri res = some ds → ∀ d ∈ ds,
        ∃ l, l ∈ splitlines res.out ∧
          ∃ dt, MYPY_OUTPUT_RE_match l = some dt ∧ pyEndsWith uri dt.file = true) :=
  ⟨fun hsuf => translateLine_skip uri line data hm hsuf,
   fun sev hsev hsuf => ⟨_, translateLine_build uri line data sev hm hsuf hsev⟩,
   fun res ds h => publishLoop_sources uri (splitlines res.out) ds h⟩

/-- Claim C3 witness: a finding for `a.py` is dropped for uri
`file:///tmp/b.py` and published for uri `file:///tmp/a.py`. -/
theorem publish_suffix_filter_witness :
    translateLine "file:///tmp/b.py" "a.py:1: error: m" = some none
    ∧ (∃ d, translateLine "file:///tmp/a.py" "/tmp/a.py:1: error: m" = some (some d)) :=
  ⟨(publish_suffix_filter "file:///tmp/b.py" "a.py:1: error: m"
      ⟨"a.py", "1", none, "error", "m", none⟩ rfl).1 rfl,
   (publish_suffix_filter "file:///tmp/a.py" "/tmp/a.py:1: error: m"
      ⟨"/tmp/a.py", "1", none, "error", "m", none⟩ rfl).2.1 DiagnosticSeverity.Error rfl rfl⟩

/-- Claim C4 (amended).  The severity tokens error/warning/note map to
Error/Warning/Information; but a grammar-matching, suffix-matching line
whose severity token is anything else is NOT a per-line parse failure: the
`MYPY_SEVERITY[...]` subscript raises `KeyError`, the loop aborts, and no
diagnostics at all are published for that report (remaining lines are not
translated).  Only non-suffix-matching lines with unknown severity are
dropped harmlessly, because `continue` runs before the lookup. -/
theorem severity_mapping (uri : String) (res : CheckResult) (line : String)
    (data : MypyRegexResult)
    (hline : line ∈ splitlines res.out)
    (hm : MYPY_OUTPUT_RE_match line = some data)
    (hsuf : pyEndsWith uri data.file = true)
    (hsev : MYPY_SEVERITY data.severity = none) :
    MYPY_SEVERITY "error" = some DiagnosticSeverity.Error
    ∧ MYPY_SEVERITY "warning" = some DiagnosticSeverity.Warning
    ∧ MYPY_SEVERITY "note" = some DiagnosticSeverity.Information
    ∧ publish_result_to_diagnostic uri res = none :=
  ⟨by decide, by decide, by decide,
   publishLoop_none_of_mem uri (splitlines res.out) line hline
     (translateLine_raise uri line data hm hsuf hsev)⟩

/-- Claim C4 counterexample.  The report
`a.py:1: fatal: boom\na.py:2: error: real problem  [misc]` contains an
unknown-severity line followed by a perfectly valid error line, yet nothing
is published at all (the claim predicts the second line's diagnostic is
still published). -/
theorem severity_unknown_aborts_cex :
    MYPY_OUTPUT_RE_match "a.py:2: error: real problem  [misc]" =
      some ⟨"a.py", "2", none, "error", "real problem", some "misc"⟩
    ∧ publish_result_to_diagnostic "file:///a.py" resUnknownSeverity = none := by
  exact ⟨by decide, by decide⟩

/-- Claim C4 witness: the amended behavior at the concrete report. -/
theorem severity_mapping_witness :
    MYPY_SEVERITY "error" = some DiagnosticSeverity.Error
    ∧ MYPY_SEVERITY "warning" = some DiagnosticSeverity.Warning
    ∧ MYPY_SEVERITY "note" = some DiagnosticSeverity.Information
    ∧ publish_result_to_diagnostic "file:///a.py" resUnknownSeverity = none :=
  severity_mapping "file:///a.py" resUnknownSeverity "a.py:1: fatal: boom"
    ⟨"a.py", "1", none, "fatal", "boom", none⟩ (by decide) rfl rfl rfl

/-- Claim C5 evaluation at the failing input (code_bug).  When
`workspace.get_document` itself raises (document resolution fails), the
bare `except:` synthesizes `res` in order to publish it, but the very next
log line reads `source.path` — and `source` was never bound — so `validate`
raises `NameError` and no publication at all happens for the triggering
uri: the diagnostics are left stale, although the handler's clear intent
(and the claim) is to publish an empty set. -/
theorem validate_resolution_failure_raises :
    (validate envDocFailure).outcome =
      ValidateOutcome.raised "NameError: name 'source' is not defined"
    ∧ (validate envDocFailure).checkedSource = none := ⟨rfl, rfl⟩

/-- Claim C6 (amended).  For a check on a `file://` uri whose backing file
no longer exists, the engine entry points are never invoked and an empty
diagnostic set is published — but not through a pre-check: the adapter
`check` IS entered (it flushes the fscache and calls `fscache.stat`, whose
`OSError` aborts it), and the empty publication comes from `validate`'s
exception handler synthesizing `{"out": "", "err": ..., "status": 2}`. -/
theorem missing_file_check (env : ValidateEnv) (doc : TextDoc) (name base_dir : String)
    (hdoc : env.get_document = Except.ok doc)
    (hfile : pyStartsWith doc.uri "file://" = true)
    (hcrawl : env.crawl_up (env.normpath (pyDrop doc.uri 7)) = Except.ok (name, base_dir))
    (hpath : (env.normpath (pyDrop doc.uri 7) != "") = true)
    (htext : (doc.source != "") = true)
    (hmissing : env.st.file_exists (env.normpath (pyDrop doc.uri 7)) = false) :
    (validate_and_publish env).1 =
      [CheckEvent.fscacheFlush, CheckEvent.fscacheStat (env.normpath (pyDrop doc.uri 7))]
    ∧ (validate_and_publish env).2 = some (doc.uri, some []) := by
  have hv : validate env =
      ⟨[CheckEvent.fscacheFlush, CheckEvent.fscacheStat (env.normpath (pyDrop doc.uri 7))],
       some ⟨some (env.normpath (pyDrop doc.uri 7)), some name, some doc.source, some base_dir⟩,
       ValidateOutcome.published doc.uri ⟨"", "FileNotFoundError", 2⟩⟩ := by
    simp [validate, hdoc, hfile, hcrawl, check, hpath, htext, hmissing]
  constructor
  · simp only [validate_and_publish, hv]
  · simp only [validate_and_publish, hv]
    rfl

/-- Claim C6 counterexample.  At a concrete missing-file event the adapter
`check` is invoked (its internal fscache flush and stat happen), although
the claim says `check` is never invoked for that event; the empty
publication still takes place. -/
theorem missing_file_adapter_invoked_cex :
    envMissingFile.st.file_exists "/tmp/a.py" = false
    ∧ (validate_and_publish envMissingFile).1 =
        [CheckEvent.fscacheFlush, CheckEvent.fscacheStat "/tmp/a.py"]
    ∧ (validate_and_publish envMissingFile).2 = some ("file:///tmp/a.py", some []) := by
  exact ⟨rfl, by decide, by decide⟩

/-- Claim C6 witness: the amended behavior at the concrete scenario. -/
theorem missing_file_check_witness :
    (validate_and_publish envMissingFile).1 =
      [CheckEvent.fscacheFlush,
       CheckEvent.fscacheStat (envMissingFile.normpath (pyDrop "file:///tmp/a.py" 7))]
    ∧ (validate_and_publish envMissingFile).2 = some ("file:///tmp/a.py", some []) :=
  missing_file_check envMissingFile ⟨"file:///tmp/a.py", "x = 1"⟩ "a" "/tmp"
    rfl (by decide) rfl (by decide) (by decide) rfl

/-- Claim C7.  `publish_result_to_diagnostic` reads only the triggering uri
and the result it is handed, so the second of two successive publications
is a function of the second report alone (unchanged under any change of the
first report), and a second report with no findings for the document
publishes the empty list. -/
theorem publish_replacement (uri : String) (res1 res1' res2 : CheckResult) :
    (publishSequence uri [res1, res2]).get? 1 = (publishSequence uri [res1', res2]).get? 1
    ∧ ((∀ l ∈ splitlines res2.out,
          Option.all (fun d => !(pyEndsWith uri d.file)) (MYPY_OUTPUT_RE_match l) = true) →
        (publishSequence uri [res1, res2]).get? 1 = some (some [])) := by
  constructor
  · rfl
  · intro h
    have he := publishLoop_empty uri (splitlines res2.out) h
    show some (publishLoop uri (splitlines res2.out)) = some (some [])
    rw [he]

/-- Claim C7 witness: after a first report with a finding, a clean second
report publishes the empty list. -/
theorem publish_replacement_witness :
    (publishSequence "file:///tmp/a.py"
      [⟨"/tmp/a.py:1:2: error: boom  [misc]", "", 0⟩, ⟨"", "", 0⟩]).get? 1 =
      some (some []) :=
  (publish_replacement "file:///tmp/a.py" ⟨"/tmp/a.py:1:2: error: boom  [misc]", "", 0⟩
    ⟨"/tmp/a.py:1:2: error: boom  [misc]", "", 0⟩ ⟨"", "", 0⟩).2 (by decide)

/-- Claim C8.  `check_with_dmypy` branches on the engine's
`following_imports()` signal: when cross-module re-analysis is not required
it calls `fine_grained_increment`, otherwise
`fine_grained_increment_follow_imports`; both branches shape the messages
through `increment_output` into the same `CheckResult` record (out, err,
status) that one-shot `check_with_mypy` produces. -/
theorem check_with_dmypy_branching (srv : DmypyServer) (source : BuildSource) :
    (srv.following_imports = false →
      check_with_dmypy srv source =
        srv.increment_output (srv.fine_grained_increment source) source)
    ∧ (srv.following_imports = true →
      check_with_dmypy srv source =
        srv.increment_output (srv.fine_grained_increment_follow_imports source) source)
    ∧ (∀ engine : MypyEngine, ∀ o e, engine.run_build source = Except.ok (o, e) →
        check_with_mypy engine source = Except.ok ⟨o, e, 0⟩) :=
  ⟨fun h => by simp [check_with_dmypy, h],
   fun h => by simp [check_with_dmypy, h],
   fun engine o e h => by simp [check_with_mypy, h]⟩

/-- Claim C8 witness: both branches at concrete servers. -/
theorem check_with_dmypy_branching_witness :
    check_with_dmypy dmypyLocalW sourceW =
      dmypyLocalW.increment_output (dmypyLocalW.fine_grained_increment sourceW) sourceW
    ∧ check_with_dmypy dmypyFollowW sourceW =
      dmypyFollowW.increment_output
        (dmypyFollowW.fine_grained_increment_follow_imports sourceW) sourceW :=
  ⟨(check_with_dmypy_branching dmypyLocalW sourceW).1 rfl,
   (check_with_dmypy_branching dmypyFollowW sourceW).2.1 rfl⟩

/-- Claim C9 (amended).  A document with no backing file path (non-`file://`
uri) is submitted to `check` as `BuildSource(None, None, text)`: no synthetic
path is allocated at all — the `path` handed to the engine is `None`. -/
theorem untitled_source_has_no_path (env : ValidateEnv) (doc : TextDoc)
    (hdoc : env.get_document = Except.ok doc)
    (hfile : pyStartsWith doc.uri "file://" = false) :
    (validate env).checkedSource = some ⟨none, none, some doc.source, none⟩ := by
  cases hc : (check env.st ⟨none, none, some doc.source, none⟩).2 with
  | ok res => simp [validate, hdoc, hfile, hc]
  | error e => simp [validate, hdoc, hfile, hc]

/-- Claim C9 counterexample.  At a concrete untitled-buffer event the
`BuildSource` passed to `check` carries `path = None` — not a synthetic
process-unique path as the claim states. -/
theorem untitled_no_synthetic_path_cex :
    (validate envUntitled).checkedSource = some ⟨none, none, some "x = 1", none⟩
    ∧ ((validate envUntitled).checkedSource.map BuildSource.path) = some none := by
  exact ⟨by decide, by decide⟩

/-- Claim C9 witness: the amended behavior at the concrete scenario. -/
theorem untitled_source_has_no_path_witness :
    (validate envUntitled).checkedSource = some ⟨none, none, some "x = 1", none⟩ :=
  untitled_source_has_no_path envUntitled ⟨"untitled:buf", "x = 1"⟩ rfl (by decide)

/-- Claim C10.  `check_with_mypy` returns `"status": 0` no matter what the
build produced; a build exception propagates out of it unchanged, so in
one-shot mode an engine-level failure can only surface as the
`{"out": "", "err": detail, "status": 2}` result synthesized by `validate`'s
exception handler, which is then published. -/
theorem check_with_mypy_status_zero (engine : MypyEngine) (source : BuildSource) :
    (∀ res, check_with_mypy engine source = Except.ok res → res.status = 0)
    ∧ (∀ e, engine.run_build source = Except.error e →
        check_with_mypy engine source = Except.error e)
    ∧ (∀ env : ValidateEnv, ∀ doc : TextDoc, ∀ e : String,
        env.st.use_dmypy = false → env.st.engine = engine →
        env.get_document = Except.ok doc →
        pyStartsWith doc.uri "file://" = false →
        source = ⟨none, none, some doc.source, none⟩ →
        engine.run_build source = Except.error e →
        (validate env).outcome = ValidateOutcome.published doc.uri ⟨"", e, 2⟩) := by
  refine ⟨?_, ?_, ?_⟩
  · intro res h
    cases hb : engine.run_build source with
    | error e =>
      simp only [check_with_mypy, hb] at h
      exact Except.noConfusion h
    | ok oe =>
      obtain ⟨o, er⟩ := oe
      simp only [check_with_mypy, hb] at h
      obtain rfl := Except.ok.inj h
      rfl
  · intro e h
    simp [check_with_mypy, h]
  · intro env doc e h1 h2 h3 h4 h5 h6
    subst h2
    subst h5
    simp [validate, h3, h4, check, checkDispatch, h1, check_with_mypy, h6]

/-- Claim C10 witness: a completed build yields status 0; a raising build in
one-shot mode surfaces as the published synthesized status-2 result. -/
theorem check_with_mypy_status_zero_witness :
    (⟨"out text", "err text", 0⟩ : CheckResult).status = 0
    ∧ (validate envBuildFailure).outcome =
        ValidateOutcome.published "untitled:x" ⟨"", "boom", 2⟩ :=
  ⟨(check_with_mypy_status_zero engineQuiet ⟨none, none, some "x = 1", none⟩).1
      ⟨"out text", "err text", 0⟩ rfl,
   (check_with_mypy_status_zero engineBoom ⟨none, none, some "x = 1", none⟩).2.2
      envBuildFailure ⟨"untitled:x", "x = 1"⟩ "boom" rfl rfl rfl (by decide) rfl rfl⟩
